import Mathlib

/-!
# zuriflow — verification of the spec's claims against the source

Shallow embedding of the zuriflow workflow engine:
* `validate_dag` — src/zuriflow/utils/dag_validation.py
* `run_task` — src/zuriflow/celery_worker.py
* `build_celery_graph`, `mkExecParams`, TaskRun creation — src/zuriflow/orchestrator.py

Python dicts are modelled as association lists over a JSON-like value type `J`;
dict update keeps lookup semantics. Machine time (`time.time()`) is a `Nat`
parameter; Python's float subtraction `now - opened < RESET` is modelled with
truncated `Nat` subtraction, which decides the `< RESET` comparison identically
for the reachable states (opened stamped from a past `time.time()`).
-/

/-- JSON-like Python value, as stored in DAG documents, params and results. -/
inductive J where
  | null : J
  | bool : Bool → J
  | nat  : Nat → J
  | str  : String → J
  | list : List J → J
  | obj  : List (String × J) → J
deriving Repr

/-- Python `==` on `J` values (structural equality). -/
def beqJ : J → J → Bool
  | .null, .null => true
  | .bool a, .bool b => a == b
  | .nat a, .nat b => a == b
  | .str a, .str b => a == b
  | .list a, .list b => beqJList a b
  | .obj a, .obj b => beqJObj a b
  | _, _ => false
where
  beqJList : List J → List J → Bool
    | [], [] => true
    | x :: xs, y :: ys => beqJ x y && beqJList xs ys
    | _, _ => false
  beqJObj : List (String × J) → List (String × J) → Bool
    | [], [] => true
    | (k, v) :: xs, (k', v') :: ys => k == k' && beqJ v v' && beqJObj xs ys
    | _, _ => false

/-- Python truthiness on `J` values. -/
def pyTruthy : J → Bool
  | .null => false
  | .bool b => b
  | .nat n => n != 0
  | .str s => s != ""
  | .list l => !l.isEmpty
  | .obj l => !l.isEmpty

/-- Python `x in xs` membership for a list container (element `==` candidate). -/
def jmem (x : J) (xs : List J) : Bool := xs.any (fun a => beqJ a x)

/-- Python `d.get(k)` on a dict: the value, `None` when the key is absent. -/
def dget (d : List (String × J)) (k : String) : J := (List.lookup k d).getD J.null

/-- Python `d[k] = v` / `{**d, k: v}`: update preserving lookup semantics. -/
def dset (d : List (String × J)) (k : String) (v : J) : List (String × J) :=
  (d.filter fun p => p.1 ≠ k) ++ [(k, v)]

/-! ## DAG validator — utils/dag_validation.py -/

/-- `validate_task`: checks `REQUIRED_TASK_FIELDS ⊆ task.keys()`
(`task_id`, `type`, `params`). -/
def validate_task (task : List (String × J)) : Except String Unit :=
  let keys := task.map Prod.fst
  if keys.contains "task_id" && keys.contains "type" && keys.contains "params" then
    .ok ()
  else
    .error "Task missing required fields"

/-- The validator's per-task loop: validates each task, rejects duplicate
`task_id`s, and accumulates `task_ids` in order. Non-dict tasks crash the
Python loop (`task.keys()`), modelled as an error. -/
def checkTasks : List J → List J → Except String (List J)
  | [], ids => .ok ids
  | t :: rest, ids =>
    match t with
    | .obj fields =>
      match validate_task fields with
      | .error e => .error e
      | .ok () =>
        match List.lookup "task_id" fields with
        | some tid =>
          if jmem tid ids then .error "Duplicate task_id"
          else checkTasks rest (ids ++ [tid])
        | none => .error "KeyError: task_id"
    | _ => .error "AttributeError: task is not a mapping"

/-- The validator's per-dependency loop: each dependency must carry
`upstream` and `downstream`, both referencing known task_ids. -/
def checkDeps (ids : List J) : List J → Except String Unit
  | [] => .ok ()
  | d :: rest =>
    match d with
    | .obj fields =>
      match List.lookup "upstream" fields, List.lookup "downstream" fields with
      | some u, some v =>
        if jmem u ids && jmem v ids then checkDeps ids rest
        else .error "Dependency references unknown task_id"
      | _, _ => .error "Dependency missing upstream or downstream"
    | _ => .error "TypeError: dependency is not a mapping"

/-- `validate_dag(dag)`: field presence, list types, per-task validation with
unique `task_id`s, and dependency endpoints referencing known task_ids.
(The function performs no acyclicity check and never reads `branches` or
`loop`.) -/
def validate_dag (dag : List (String × J)) : Except String Unit :=
  if (dag.map Prod.fst).contains "tasks" && (dag.map Prod.fst).contains "dependencies" then
    match List.lookup "tasks" dag with
    | some (.list tasks) =>
      match List.lookup "dependencies" dag with
      | some (.list deps) =>
        match checkTasks tasks [] with
        | .error e => .error e
        | .ok ids => checkDeps ids deps
      | some _ => .error "DAG dependencies must be a list"
      | none => .error "KeyError: dependencies"
    | some _ => .error "DAG tasks must be a list"
    | none => .error "KeyError: tasks"
  else
    .error "DAG missing required fields"

/-! ### Derived views of a DAG document, for stating the claims -/

/-- The raw task list of a document (empty when absent or not a list). -/
def docTasks (dag : List (String × J)) : List J :=
  match List.lookup "tasks" dag with
  | some (.list ts) => ts
  | _ => []

/-- The raw dependency list of a document (empty when absent or not a list). -/
def docDeps (dag : List (String × J)) : List J :=
  match List.lookup "dependencies" dag with
  | some (.list ds) => ds
  | _ => []

/-- The `task_id` value of a raw task entry, when it is a mapping that has
one. -/
def taskIdOf (t : J) : Option J :=
  match t with
  | .obj f => List.lookup "task_id" f
  | _ => none

/-- The declared `task_id` values of a document, in task order. -/
def docTaskIds (dag : List (String × J)) : List J :=
  (docTasks dag).filterMap taskIdOf

/-- The dependency edges (upstream, downstream) of a document. -/
def docEdges (dag : List (String × J)) : List (J × J) :=
  (docDeps dag).filterMap fun d =>
    match d with
    | .obj fields =>
      match List.lookup "upstream" fields, List.lookup "downstream" fields with
      | some u, some v => some (u, v)
      | _, _ => none
    | _ => none

/-- All branch targets named by any task node's `branches` mapping. -/
def docBranchTargets (dag : List (String × J)) : List J :=
  (docTasks dag).flatMap fun t =>
    match t with
    | .obj fields =>
      match List.lookup "branches" fields with
      | some (.obj bm) =>
        bm.flatMap fun bv =>
          match bv.2 with
          | .list children => children
          | _ => []
      | _ => []
    | _ => []

/-- `b` is reachable from `a` along edges `es` in at most `n` steps. -/
def reachN : Nat → List (J × J) → J → J → Bool
  | 0, _, a, b => beqJ a b
  | n + 1, es, a, b =>
    beqJ a b || es.any fun e => beqJ e.1 a && reachN n es e.2 b

/-- The digraph of `es` has a directed cycle: some edge closes a path back to
its own source. -/
def hasCycle (es : List (J × J)) : Bool :=
  es.any fun e => reachN es.length es e.2 e.1

example : validate_dag [("tasks", .list []), ("dependencies", .list [])] = .ok () := rfl

/-! ## Task runner — celery_worker.py `run_task` -/

/-- TaskRun status enum (db.py `TaskStatus`). -/
inductive TaskStatus where
  | PENDING | RUNNING | SUCCESS | FAILED | SKIPPED
deriving DecidableEq, Repr

/-- One circuit-breaker entry: `{"failures": n, "opened": t}`. -/
structure CB where
  failures : Nat := 0
  opened : Nat := 0
deriving DecidableEq, Repr

/-- The `CIRCUIT_BREAKER` dict, keyed by executor name. -/
abbrev CBMap := List (String × CB)

/-- `CIRCUIT_BREAKER.get(key, {"failures": 0, "opened": 0})`. -/
def cbGet (m : CBMap) (k : String) : CB := (List.lookup k m).getD {}

/-- `CIRCUIT_BREAKER[key] = cb`, preserving lookup semantics. -/
def cbSet (m : CBMap) (k : String) (v : CB) : CBMap :=
  (m.filter fun p => p.1 ≠ k) ++ [(k, v)]

def CIRCUIT_BREAKER_THRESHOLD : Nat := 5
def CIRCUIT_BREAKER_RESET : Nat := 300

/-- `celery.utils.time.get_exponential_backoff_interval(factor, retries,
maximum, full_jitter=False)`: `countdown = min(maximum, factor * 2**retries)`;
with full jitter the delay is `random.randrange(countdown + 1)`, modelled by
`rand % (countdown + 1)`; `max(0, ·)` is the identity on `Nat`. -/
def get_exponential_backoff_interval
    (factor retries maximum : Nat) (full_jitter : Bool) (rand : Nat) : Nat :=
  let countdown := min maximum (factor * 2 ^ retries)
  if full_jitter then rand % (countdown + 1) else countdown

/-- The delay computed at celery_worker.py:162:
`get_exponential_backoff_interval(attempt, 1, 60, 2)` — the attempt number is
passed as `factor`, `1` as `retries`, and `2` as the (truthy) `full_jitter`
flag. -/
def backoff_delay (attempt rand : Nat) : Nat :=
  get_exponential_backoff_interval attempt 1 60 true rand

/-- Ambient inputs of one `run_task` invocation: the executor registry, the
outcome `executor.execute(params, context)` would produce if invoked, the
result of `eval(condition, {}, context)` on a condition string, the two
`time.time()` readings (gate check and failure accounting), and the
randomness consumed by the jittered backoff. -/
structure Env where
  registry : List String
  execRes : Except String J
  condEval : String → J
  now : Nat
  now2 : Nat := 0
  rand : Nat := 0

/-- Outcome of the Celery task body: a returned value, a
`self.retry(countdown=delay)` carrying the original error, or a propagated
exception. -/
inductive Outcome where
  | ret : J → Outcome
  | retry : Nat → String → Outcome
  | exn : String → Outcome

/-- Observable effects of one `run_task` call: the Celery outcome, the final
TaskRun status and result (`none` when no TaskRun row is bound or the field
was never written), the circuit-breaker dict after the call, and whether
`executor.execute` was invoked. -/
structure RunResult where
  outcome : Outcome
  status : Option TaskStatus
  result : Option J
  breaker : CBMap
  invoked : Bool

/-- The value returned on a falsy condition. -/
def skipResult : J := .obj [("skipped", .bool true), ("reason", .str "Condition not met")]

/-- Branch handling on success (celery_worker.py:134-137): if `branches` is
truthy in params and the result is a dict with a `branch` key, copy it to
`branch_taken`. -/
def applyBranchTaken (params : List (String × J)) (result : J) : J :=
  if pyTruthy (dget params "branches") then
    match result with
    | .obj fields =>
      match List.lookup "branch" fields with
      | some bv => .obj (dset fields "branch_taken" bv)
      | none => result
    | _ => result
  else result

/-- Result of the `try` body (lines 96-148): a condition skip, a successful
result, or an exception message paired with whether `executor.execute` had
been invoked. -/
inductive BodyRes where
  | skipped : BodyRes
  | success : J → BodyRes
  | failed : String → Bool → BodyRes

/-- The `try` body of `run_task`: `get_executor` (raises on unknown names),
the condition gate, then the executor invocation and branch handling. A
truthy non-string condition makes `eval` raise, landing in the `except`
path. (The `signal.alarm` arming and the no-op `loop_item` pass-through do
not alter the data flow and carry no state.) -/
def tryBody (env : Env) (executor_name : String) (params : List (String × J)) : BodyRes :=
  if env.registry.contains executor_name then
    let condition := dget params "condition"
    if pyTruthy condition then
      match condition with
      | .str s =>
        if pyTruthy (env.condEval s) then
          match env.execRes with
          | .error e => .failed e true
          | .ok result => .success (applyBranchTaken params result)
        else .skipped
      | _ => .failed "TypeError: eval on non-string condition" false
    else
      match env.execRes with
      | .error e => .failed e true
      | .ok result => .success (applyBranchTaken params result)
  else .failed ("Unknown executor: " ++ executor_name) false

/-- `params.get("retries", 3)` as read at celery_worker.py:159. Only integer
values are meaningful (anything else makes the `attempt < retries`
comparison raise in Python; modelled inputs carry integers or omit the key).
-/
def retriesOf (params : List (String × J)) : Nat :=
  match List.lookup "retries" params with
  | some (.nat n) => n
  | _ => 3

/-- `run_task(self, executor_name, params, context, task_run_id)`.
`has_task_run` — a TaskRun row was found for `task_run_id`; `cb0` — the
`CIRCUIT_BREAKER` dict at entry; `attempt` — `self.request.retries`. The
row's status is first set to RUNNING; the circuit-breaker gate (lines 85-94)
sits before the `try`, so its exception does not touch the breaker state.
The `except` path (lines 150-171) increments the breaker entry, stamps
`opened` on crossing the threshold, and either schedules a retry
(status stays RUNNING, result unwritten) or marks the row FAILED. -/
def run_task (env : Env) (executor_name : String) (params : List (String × J))
    (has_task_run : Bool) (cb0 : CBMap) (attempt : Nat) : RunResult :=
  let cb := cbGet cb0 executor_name
  if CIRCUIT_BREAKER_THRESHOLD ≤ cb.failures ∧ env.now - cb.opened < CIRCUIT_BREAKER_RESET then
    { outcome := .exn "Circuit breaker open for executor"
      status := if has_task_run then some .FAILED else none
      result := if has_task_run then some (.obj [("error", .str "Circuit breaker open for executor")]) else none
      breaker := cb0
      invoked := false }
  else
    match tryBody env executor_name params with
    | .skipped =>
      { outcome := .ret skipResult
        status := if has_task_run then some .SKIPPED else none
        result := if has_task_run then some skipResult else none
        breaker := cb0
        invoked := false }
    | .success r =>
      { outcome := .ret r
        status := if has_task_run then some .SUCCESS else none
        result := if has_task_run then some r else none
        breaker := cb0
        invoked := true }
    | .failed e inv =>
      let cb1 := cbGet cb0 executor_name
      let f := cb1.failures + 1
      let cb2 : CB :=
        { failures := f
          opened := if CIRCUIT_BREAKER_THRESHOLD ≤ f then env.now2 else cb1.opened }
      let breaker1 := cbSet cb0 executor_name cb2
      if attempt < retriesOf params then
        { outcome := .retry (backoff_delay attempt env.rand) e
          status := if has_task_run then some .RUNNING else none
          result := none
          breaker := breaker1
          invoked := inv }
      else
        { outcome := .exn e
          status := if has_task_run then some .FAILED else none
          result := if has_task_run then some (.obj [("error", .str e)]) else none
          breaker := breaker1
          invoked := inv }

/-! ## Orchestrator — orchestrator.py -/

/-- A DAG task node as read by `run_workflow` via `node.get(...)`. `loop` is
represented by its `foreach` item list, the only loop key the code reads
(`node["loop"].get("foreach")`); `branches` by its mapping from branch value
to child task_ids. -/
structure TaskNode where
  task_id : String
  type_ : String := "python"
  params : List (String × J) := []
  retries : Option Nat := none
  retry_delay : Option Nat := none
  timeout : Option J := none
  trigger_rule : Option String := none
  condition : Option J := none
  branches : Option (List (String × List String)) := none
  loop_foreach : Option (List J) := none

/-- The `branches` node field as the JSON value placed into exec params. -/
def branchesJ : Option (List (String × List String)) → J
  | none => .null
  | some bm => .obj (bm.map fun bv => (bv.1, .list (bv.2.map J.str)))

/-- The `loop` node field as the JSON value placed into exec params. -/
def loopJ : Option (List J) → J
  | none => .null
  | some items => .obj [("foreach", .list items)]

/-- `exec_params` built at orchestrator.py:73-80:
`{**params, "trigger_rule": ..., "condition": ..., "branches": ...,
"loop": ..., "timeout": ...}`. Note that the node-level `retries` is NOT
merged into params (it is only passed as a Celery signature option). -/
def mkExecParams (node : TaskNode) : List (String × J) :=
  dset (dset (dset (dset (dset node.params
    "trigger_rule" (.str (node.trigger_rule.getD "all_success")))
    "condition" (node.condition.getD .null))
    "branches" (branchesJ node.branches))
    "loop" (loopJ node.loop_foreach))
    "timeout" (node.timeout.getD .null)

/-- A Celery task signature for `run_task`: its args
`(executor_name, params, context, task_run_id)` plus the `retries` signature
option set at orchestrator.py:82; `node` records which DAG node produced it.
TaskRun rows are identified by the task_id they were created for. -/
structure Sig where
  node : String
  executor : String
  params : List (String × J)
  task_run : Option String
  optRetries : Nat

/-- `celery_sigs[node_id]` (orchestrator.py:82): args are the node type, the
exec params, an empty context, and the node's TaskRun id; the signature
option `retries` is `node.get("retries", 0)`. -/
def mkSig (node : TaskNode) : Sig :=
  { node := node.task_id
    executor := node.type_
    params := mkExecParams node
    task_run := some node.task_id
    optRetries := node.retries.getD 0 }

/-- Celery canvas: a signature, a two-argument `chain`, or a `group`. -/
inductive Canvas where
  | sig : Sig → Canvas
  | chain : Canvas → Canvas → Canvas
  | group : List Canvas → Canvas

/-- All signatures dispatched by a canvas, in structural order. -/
def Canvas.sigs : Canvas → List Sig
  | .sig s => [s]
  | .chain a b => a.sigs ++ b.sigs
  | .group l => sigsList l
where
  sigsList : List Canvas → List Sig
    | [] => []
    | c :: cs => c.sigs ++ sigsList cs

/-- The DAG nodes a canvas dispatches a signature for. -/
def Canvas.nodes (c : Canvas) : List String := c.sigs.map Sig.node

/-- `tasks[node_id]`: first task with the given id (ids unique in a valid
DAG). -/
def findNode (tasks : List TaskNode) (node_id : String) : Option TaskNode :=
  tasks.find? fun n => n.task_id == node_id

/-- `list(G.successors(node_id))`: edge targets out of `node_id` in edge
insertion order, without duplicates (networkx stores simple digraphs). -/
def successors (edges : List (String × String)) (node_id : String) : List String :=
  ((edges.filter fun e => e.1 == node_id).map Prod.snd).dedup

/-- `child_sigs[0] if len(child_sigs) == 1 else group(child_sigs)`. -/
def groupOrSingle : List Canvas → Canvas
  | [c] => c
  | cs => .group cs

/-- `build_celery_graph(node_id)` (orchestrator.py:88-135), with fuel for the
recursion over successors (`none` models a Python exception: missing node,
or fuel exhaustion, which cannot occur on an acyclic graph with fuel ≥ its
depth). A node with truthy `branches` contributes its own signature chained
into a group of per-branch groups built from ALL branches — the source
comment reads "Currently schedules all branches — dynamic execution can be
added later" — and its graph children are ignored on that path. A node with
a truthy `loop.foreach` fans out one cloned signature per item carrying
`{**params, "loop_item": item}` and task_run_id `None` (clones keep the
signature's `retries` option). -/
def build_celery_graph (tasks : List TaskNode) (edges : List (String × String)) :
    Nat → String → Option Canvas
  | 0, _ => none
  | fuel + 1, node_id =>
    match findNode tasks node_id with
    | none => none
    | some node =>
      let children := successors edges node_id
      match node.branches with
      | some (b :: bs) =>
        match ((b :: bs).mapM fun bv =>
            (bv.2.mapM (build_celery_graph tasks edges fuel)).map Canvas.group) with
        | none => none
        | some bgroups => some (.chain (.sig (mkSig node)) (.group bgroups))
      | _ =>
        match node.loop_foreach with
        | some (i :: is) =>
          let loop_group : Canvas := .group (((i :: is)).map fun item =>
            .sig { node := node.task_id
                   executor := node.type_
                   params := dset node.params "loop_item" item
                   task_run := none
                   optRetries := node.retries.getD 0 })
          if children.isEmpty then some loop_group
          else
            match children.mapM (build_celery_graph tasks edges fuel) with
            | none => none
            | some cs => some (.chain loop_group (groupOrSingle cs))
        | _ =>
          if children.isEmpty then some (.sig (mkSig node))
          else
            match children.mapM (build_celery_graph tasks edges fuel) with
            | none => none
            | some cs => some (.chain (.sig (mkSig node)) (groupOrSingle cs))

/-- The TaskRun rows created by `run_workflow` (orchestrator.py:56-70): the
loop over `tasks.items()` creates exactly one PENDING TaskRun per DAG node —
regardless of any `loop.foreach` fan-out. Rows are listed by their task_id.
-/
def workflowTaskRuns (tasks : List TaskNode) : List String :=
  tasks.map TaskNode.task_id

/-! ## Theorems -/

theorem checkTasks_ids (ts : List J) (acc ids : List J)
    (h : checkTasks ts acc = .ok ids) :
    ids = acc ++ ts.filterMap taskIdOf := by
  induction ts generalizing acc with
  | nil =>
    simp only [checkTasks, Except.ok.injEq] at h
    simp [← h]
  | cons t rest ih =>
    unfold checkTasks at h
    split at h
    · rename_i fields
      split at h
      · simp at h
      · split at h
        · rename_i tid htid
          split at h
          · simp at h
          · have := ih (acc ++ [tid]) h
            simp [taskIdOf, List.filterMap_cons, htid, this]
        · simp at h
    · simp at h

theorem checkDeps_declared (ids : List J) (ds : List J)
    (h : checkDeps ids ds = .ok ()) :
    ∀ d ∈ ds, ∃ fields u v, d = J.obj fields
      ∧ List.lookup "upstream" fields = some u
      ∧ List.lookup "downstream" fields = some v
      ∧ jmem u ids = true ∧ jmem v ids = true := by
  induction ds with
  | nil => simp
  | cons d rest ih =>
    unfold checkDeps at h
    split at h
    · rename_i fields
      split at h
      · rename_i u v hu hv
        split at h
        · rename_i hmem
          intro d' hd'
          rcases List.mem_cons.mp hd' with rfl | hd'
          · exact ⟨fields, u, v, rfl, hu, hv,
              (Bool.and_eq_true ..).mp hmem |>.1, (Bool.and_eq_true ..).mp hmem |>.2⟩
          · exact ih h d' hd'
        · simp at h
      · simp at h
    · simp at h

/-- C1. As stated the claim is FALSE (see
`validate_dag_accepts_cycle_and_ghost_branch`): `validate_dag` checks
neither acyclicity nor branch/loop targets. Amended: for every DAG document
accepted by the validator, every entry of its dependency list is a mapping
with `upstream` and `downstream` fields, and both endpoint values are
declared `task_id`s of the DAG's tasks. -/
theorem validate_dag_deps_declared (dag : List (String × J))
    (h : validate_dag dag = .ok ()) :
    ∀ d ∈ docDeps dag, ∃ fields u v, d = J.obj fields
      ∧ List.lookup "upstream" fields = some u
      ∧ List.lookup "downstream" fields = some v
      ∧ jmem u (docTaskIds dag) = true ∧ jmem v (docTaskIds dag) = true := by
  unfold validate_dag at h
  split at h
  · split at h
    · rename_i tasks htasks
      split at h
      · rename_i deps hdeps
        split at h
        · simp at h
        · rename_i ids hids
          have hids' := checkTasks_ids tasks [] ids hids
          simp only [List.nil_append] at hids'
          intro d hd
          have hdocdeps : docDeps dag = deps := by simp [docDeps, hdeps]
          have hdocids : docTaskIds dag = ids := by
            simp [docTaskIds, docTasks, htasks, hids', taskIdOf]
          rw [hdocdeps] at hd
          rw [hdocids]
          exact checkDeps_declared ids deps h d hd
      · simp at h
      · simp at h
    · simp at h
    · simp at h
  · simp at h

/-- A DAG document whose dependency digraph is the 2-cycle t1 ⇄ t2 and whose
`branches` mapping names the undeclared task `ghost`. -/
def cyclicDoc : List (String × J) :=
  [("tasks", .list
      [.obj [("task_id", .str "t1"), ("type", .str "python"), ("params", .obj []),
             ("branches", .obj [("ok", .list [.str "ghost"])])],
       .obj [("task_id", .str "t2"), ("type", .str "python"), ("params", .obj [])]]),
   ("dependencies", .list
      [.obj [("upstream", .str "t1"), ("downstream", .str "t2")],
       .obj [("upstream", .str "t2"), ("downstream", .str "t1")]])]

/-- C1 counterexample: `validate_dag` accepts `cyclicDoc`, whose dependency
digraph has a directed cycle and whose branch target `ghost` is not a
declared task_id — refuting the claim as stated. -/
theorem validate_dag_accepts_cycle_and_ghost_branch :
    validate_dag cyclicDoc = .ok ()
    ∧ hasCycle (docEdges cyclicDoc) = true
    ∧ jmem (.str "ghost") (docBranchTargets cyclicDoc) = true
    ∧ jmem (.str "ghost") (docTaskIds cyclicDoc) = false :=
  ⟨rfl, rfl, rfl, rfl⟩

/-- A well-formed linear document t1 → t2. -/
def linearDoc : List (String × J) :=
  [("tasks", .list
      [.obj [("task_id", .str "t1"), ("type", .str "python"), ("params", .obj [])],
       .obj [("task_id", .str "t2"), ("type", .str "python"), ("params", .obj [])]]),
   ("dependencies", .list
      [.obj [("upstream", .str "t1"), ("downstream", .str "t2")]])]

/-- C1 witness: the amended theorem applied to the concrete accepted
document `linearDoc`. -/
theorem validate_dag_deps_declared_witness :
    validate_dag linearDoc = .ok ()
    ∧ ∀ d ∈ docDeps linearDoc, ∃ fields u v, d = J.obj fields
      ∧ List.lookup "upstream" fields = some u
      ∧ List.lookup "downstream" fields = some v
      ∧ jmem u (docTaskIds linearDoc) = true ∧ jmem v (docTaskIds linearDoc) = true :=
  ⟨rfl, validate_dag_deps_declared linearDoc rfl⟩

theorem lookup_setKey {β : Type} (l : List (String × β)) (k : String) (v : β) :
    List.lookup k ((l.filter fun p => p.1 ≠ k) ++ [(k, v)]) = some v := by
  induction l with
  | nil => simp [List.lookup]
  | cons p rest ih =>
    by_cases hp : p.1 = k
    · simpa [List.filter_cons, hp] using ih
    · simpa [List.filter_cons, hp, List.lookup, beq_eq_false_iff_ne.mpr (Ne.symm hp)] using ih

theorem cbGet_cbSet (m : CBMap) (k : String) (v : CB) : cbGet (cbSet m k v) k = v := by
  unfold cbGet cbSet
  rw [lookup_setKey]
  rfl

/-- An environment in which the `python` executor is registered and raises
`boom` when invoked. -/
def envBoom : Env :=
  { registry := ["python"], execRes := .error "boom", condEval := fun _ => .null
    now := 100, now2 := 100, rand := 0 }

/-- `envBoom` at a later clock, past the breaker's reset window. -/
def envBoomLate : Env := { envBoom with now := 400, now2 := 400 }

/-- A breaker dict whose `python` entry sits at the threshold, opened at 0. -/
def cbOpen : CBMap := [("python", { failures := 5, opened := 0 })]

/-- C3. Circuit-breaker gate: when the entry for the executor name records
`failures ≥ CIRCUIT_BREAKER_THRESHOLD` and fewer than
`CIRCUIT_BREAKER_RESET` seconds have passed since `opened`, `run_task` marks
the TaskRun FAILED with the circuit-breaker error result and ends with that
error without invoking the executor, leaving the breaker untouched; once the
reset window has elapsed the attempt is admitted and, for a registered
executor with no condition in params, `executor.execute` is invoked. -/
theorem run_task_circuit_breaker_gate (env : Env) (name : String)
    (params : List (String × J)) (cb0 : CBMap) (attempt : Nat)
    (hth : CIRCUIT_BREAKER_THRESHOLD ≤ (cbGet cb0 name).failures) :
    (env.now - (cbGet cb0 name).opened < CIRCUIT_BREAKER_RESET →
      run_task env name params true cb0 attempt =
        { outcome := .exn "Circuit breaker open for executor"
          status := some .FAILED
          result := some (.obj [("error", .str "Circuit breaker open for executor")])
          breaker := cb0
          invoked := false })
    ∧ (CIRCUIT_BREAKER_RESET ≤ env.now - (cbGet cb0 name).opened →
        env.registry.contains name = true →
        List.lookup "condition" params = none →
        (run_task env name params true cb0 attempt).invoked = true) := by
  constructor
  · intro h2
    simp only [run_task]
    rw [if_pos ⟨hth, h2⟩]
    simp
  · intro h2 hreg hcond
    have hng : ¬(CIRCUIT_BREAKER_THRESHOLD ≤ (cbGet cb0 name).failures ∧
        env.now - (cbGet cb0 name).opened < CIRCUIT_BREAKER_RESET) :=
      fun hc => absurd hc.2 (not_lt.mpr h2)
    simp only [run_task]
    rw [if_neg hng]
    simp only [tryBody, dget, hcond, Option.getD_none, pyTruthy]
    rw [if_pos hreg]
    simp only [Bool.false_eq_true, if_false]
    cases hres : env.execRes with
    | error e =>
      simp only []
      split <;> rfl
    | ok r =>
      rfl

/-- C3 witness: the gate theorem applied at a concrete open breaker
(`envBoom.now = 100`, entry opened at 0 with 5 failures) and at the same
state past the window (`envBoomLate.now = 400`). -/
theorem run_task_circuit_breaker_gate_witness :
    run_task envBoom "python" [] true cbOpen 0 =
      { outcome := .exn "Circuit breaker open for executor"
        status := some .FAILED
        result := some (.obj [("error", .str "Circuit breaker open for executor")])
        breaker := cbOpen
        invoked := false }
    ∧ (run_task envBoomLate "python" [] true cbOpen 0).invoked = true :=
  ⟨(run_task_circuit_breaker_gate envBoom "python" [] cbOpen 0 (by decide)).1 (by decide),
   (run_task_circuit_breaker_gate envBoomLate "python" [] cbOpen 0 (by decide)).2
     (by decide) (by decide) rfl⟩

/-- C7. A circuit-breaker rejection happens before the `try` block, so it
does not pass through the failure-accounting `except` path: the breaker dict
after the rejected call is exactly the dict at entry, and the executor is
not invoked. -/
theorem run_task_reject_frame (env : Env) (name : String)
    (params : List (String × J)) (has_tr : Bool) (cb0 : CBMap) (attempt : Nat)
    (hth : CIRCUIT_BREAKER_THRESHOLD ≤ (cbGet cb0 name).failures)
    (hwin : env.now - (cbGet cb0 name).opened < CIRCUIT_BREAKER_RESET) :
    (run_task env name params has_tr cb0 attempt).breaker = cb0
    ∧ (run_task env name params has_tr cb0 attempt).invoked = false := by
  simp only [run_task]
  rw [if_pos ⟨hth, hwin⟩]
  exact ⟨rfl, rfl⟩

/-- C7 witness: the frame theorem at the concrete open breaker `cbOpen`. -/
theorem run_task_reject_frame_witness :
    (run_task envBoom "python" [] true cbOpen 0).breaker = cbOpen
    ∧ (run_task envBoom "python" [] true cbOpen 0).invoked = false :=
  run_task_reject_frame envBoom "python" [] true cbOpen 0 (by decide) (by decide)

/-- An environment in which the `python` executor is registered and returns
`{"out": 1}` when invoked. -/
def envOk : Env :=
  { registry := ["python"], execRes := .ok (.obj [("out", .nat 1)])
    condEval := fun _ => .null, now := 100, now2 := 100, rand := 0 }

/-- A breaker dict whose `python` entry records 3 prior failures. -/
def cbThree : CBMap := [("python", { failures := 3, opened := 0 })]

/-- C6. As stated the claim is FALSE (see
`run_task_success_no_reset_counterexample`): the success path of `run_task`
never touches `CIRCUIT_BREAKER`. Amended: a successful task attempt leaves
the circuit-breaker dict exactly as it was at entry — in particular the
failure counter is NOT reset, so interleaved successes do not stop it from
accumulating to the threshold. -/
theorem run_task_success_preserves_breaker (env : Env) (name : String)
    (params : List (String × J)) (cb0 : CBMap) (attempt : Nat)
    (hsucc : (run_task env name params true cb0 attempt).status = some .SUCCESS) :
    (run_task env name params true cb0 attempt).breaker = cb0 := by
  by_cases hgate : CIRCUIT_BREAKER_THRESHOLD ≤ (cbGet cb0 name).failures ∧
      env.now - (cbGet cb0 name).opened < CIRCUIT_BREAKER_RESET
  · exfalso
    simp only [run_task] at hsucc
    rw [if_pos hgate] at hsucc
    simp at hsucc
  · simp only [run_task] at hsucc ⊢
    rw [if_neg hgate] at hsucc ⊢
    cases htb : tryBody env name params with
    | skipped => rfl
    | success r => rfl
    | failed e inv =>
      exfalso
      rw [htb] at hsucc
      simp only [] at hsucc
      by_cases hlt : attempt < retriesOf params
      · rw [if_pos hlt] at hsucc; simp at hsucc
      · rw [if_neg hlt] at hsucc; simp at hsucc

/-- C6 counterexample: with 3 recorded failures for `python`, a successful
attempt (`envOk`) ends in SUCCESS yet the failure counter still reads 3 —
refuting the claim that success resets the counter. -/
theorem run_task_success_no_reset_counterexample :
    (run_task envOk "python" [] true cbThree 0).status = some .SUCCESS
    ∧ (cbGet (run_task envOk "python" [] true cbThree 0).breaker "python").failures = 3
    ∧ (cbGet (run_task envOk "python" [] true cbThree 0).breaker "python").failures ≠ 0 :=
  ⟨rfl, rfl, by decide⟩

/-- C6 witness: the amended theorem applied to the concrete successful
attempt over `cbThree`. -/
theorem run_task_success_preserves_breaker_witness :
    (run_task envOk "python" [] true cbThree 0).breaker = cbThree :=
  run_task_success_preserves_breaker envOk "python" [] cbThree 0 rfl

/-- C9. Condition gate: when params carry a non-empty `condition` expression
string and evaluating it against the context is falsy, `run_task` marks the
TaskRun SKIPPED with `{"skipped": true, "reason": "Condition not met"}`,
returns that value, and never invokes the executor; when the evaluation is
truthy, the executor is invoked. -/
theorem run_task_condition_gate (env : Env) (name : String)
    (params : List (String × J)) (cb0 : CBMap) (attempt : Nat) (s : String)
    (hgate : ¬(CIRCUIT_BREAKER_THRESHOLD ≤ (cbGet cb0 name).failures ∧
        env.now - (cbGet cb0 name).opened < CIRCUIT_BREAKER_RESET))
    (hreg : env.registry.contains name = true)
    (hcond : List.lookup "condition" params = some (.str s)) (hs : s ≠ "") :
    (pyTruthy (env.condEval s) = false →
      run_task env name params true cb0 attempt =
        { outcome := .ret skipResult
          status := some .SKIPPED
          result := some skipResult
          breaker := cb0
          invoked := false })
    ∧ (pyTruthy (env.condEval s) = true →
        (run_task env name params true cb0 attempt).invoked = true) := by
  have hdget : dget params "condition" = .str s := by simp [dget, hcond]
  have hps : pyTruthy (J.str s) = true := by simp [pyTruthy, hs]
  constructor
  · intro heval
    simp only [run_task]
    rw [if_neg hgate]
    simp only [tryBody]
    rw [if_pos hreg, hdget, if_pos hps]
    simp only []
    rw [if_neg (show ¬pyTruthy (env.condEval s) = true by simp [heval])]
    simp
  · intro heval
    simp only [run_task]
    rw [if_neg hgate]
    simp only [tryBody]
    rw [if_pos hreg, hdget, if_pos hps]
    simp only []
    rw [if_pos heval]
    cases hres : env.execRes with
    | error e =>
      simp only []
      split <;> rfl
    | ok r => rfl

/-- An environment whose condition evaluator returns `False` for every
expression. -/
def envCondFalse : Env :=
  { envOk with condEval := fun _ => .bool false }

/-- C9 witness: the condition-gate theorem at the concrete params
`{"condition": "x > 1"}` under an evaluator returning `False`, and under
`envOk`'s evaluator (which yields `None`, falsy) replaced by a truthy one. -/
theorem run_task_condition_gate_witness :
    run_task envCondFalse "python" [("condition", .str "x > 1")] true [] 0 =
      { outcome := .ret skipResult
        status := some .SKIPPED
        result := some skipResult
        breaker := []
        invoked := false } :=
  (run_task_condition_gate envCondFalse "python" [("condition", .str "x > 1")] [] 0 "x > 1"
    (by decide) (by decide) rfl (by decide)).1 rfl

/-- C10. Unknown executor names do not fail silently: `get_executor` raises
`Unknown executor: <name>` inside the `try`, so the failure increments the
breaker entry keyed by the unknown name, is retried under the ordinary
retry policy while `attempt < params.get("retries", 3)` (the executor is
never invoked), and once attempts are exhausted the TaskRun is marked
FAILED with `{"error": "Unknown executor: <name>"}`. -/
theorem run_task_unknown_executor (env : Env) (name : String)
    (params : List (String × J)) (cb0 : CBMap) (attempt : Nat)
    (hreg : env.registry.contains name = false)
    (hgate : ¬(CIRCUIT_BREAKER_THRESHOLD ≤ (cbGet cb0 name).failures ∧
        env.now - (cbGet cb0 name).opened < CIRCUIT_BREAKER_RESET)) :
    (cbGet (run_task env name params true cb0 attempt).breaker name).failures
      = (cbGet cb0 name).failures + 1
    ∧ (run_task env name params true cb0 attempt).invoked = false
    ∧ (attempt < retriesOf params →
        (run_task env name params true cb0 attempt).outcome =
          .retry (backoff_delay attempt env.rand) ("Unknown executor: " ++ name))
    ∧ (retriesOf params ≤ attempt →
        (run_task env name params true cb0 attempt).outcome = .exn ("Unknown executor: " ++ name)
        ∧ (run_task env name params true cb0 attempt).status = some .FAILED
        ∧ (run_task env name params true cb0 attempt).result =
            some (.obj [("error", .str ("Unknown executor: " ++ name))])) := by
  simp only [run_task]
  rw [if_neg hgate]
  simp only [tryBody]
  rw [if_neg (show ¬env.registry.contains name = true by rw [hreg]; simp)]
  simp only []
  refine ⟨?_, ?_, ?_, ?_⟩
  · split <;> simp [cbGet_cbSet]
  · split <;> rfl
  · intro hlt
    rw [if_pos hlt]
  · intro hge
    rw [if_neg (not_lt.mpr hge)]
    exact ⟨rfl, by simp, by simp⟩

/-- A node declared with `retries: 0` and no params of its own. -/
def retries0Node : TaskNode :=
  { task_id := "t1", type_ := "python", retries := some 0 }

/-- C4 (code bug). The claim matches the spec and the orchestrator's intent
(`node.get("retries", 0)`, passed as the signature option), but `run_task`
reads `params.get("retries", 3)` and the orchestrator never merges the
node-level `retries` into exec params: on the first executor error of a
`retries=0` node, attempt 0 < 3 and a retry is scheduled (status stays
RUNNING) instead of the TaskRun being marked FAILED after a single
invocation. -/
theorem retries_zero_node_still_retried :
    (mkSig retries0Node).optRetries = 0
    ∧ List.lookup "retries" (mkExecParams retries0Node) = none
    ∧ retriesOf (mkExecParams retries0Node) = 3
    ∧ (run_task envBoom "python" (mkExecParams retries0Node) true [] 0).outcome
        = .retry 0 "boom"
    ∧ (run_task envBoom "python" (mkExecParams retries0Node) true [] 0).status
        = some .RUNNING :=
  ⟨rfl, rfl, rfl, rfl, rfl⟩

/-- C5 (code bug). The claim repeats the spec's backoff formula
`min(60, 1·2^attempt)`, but the source transposes the arguments of
`get_exponential_backoff_interval`: the attempt number is passed as the
`factor`, the constant 1 as the exponent `retries`, and the constant 2 lands
in the truthy `full_jitter` flag, so the scheduled delay is a random draw
from `[0, min(60, 2·attempt)]`. At attempt 0 the delay is 0 for every
random draw, where the claim demands `min(60, 1·2^0) = 1`; the exercised
retry path of `run_task` schedules that 0-second retry. -/
theorem backoff_delay_mismatch :
    (∀ rand : Nat, backoff_delay 0 rand = 0)
    ∧ (∀ attempt rand : Nat,
        backoff_delay attempt rand = rand % (min 60 (attempt * 2) + 1))
    ∧ min 60 (1 * 2 ^ 0) = 1
    ∧ (run_task envBoom "python" [("retries", .nat 2)] true [] 0).outcome
        = .retry 0 "boom" := by
  refine ⟨?_, ?_, rfl, rfl⟩
  · intro rand
    simp [backoff_delay, get_exponential_backoff_interval, Nat.mod_one]
  · intro attempt rand
    simp [backoff_delay, get_exponential_backoff_interval, pow_one]

/-- The scenario-4 DAG: `t1` with `branches: {"ok": ["t2"], "err": ["t3"]}`
and dependency edges t1 → t2, t1 → t3. -/
def branchTasks : List TaskNode :=
  [{ task_id := "t1", type_ := "python",
     branches := some [("ok", ["t2"]), ("err", ["t3"])] },
   { task_id := "t2", type_ := "python" },
   { task_id := "t3", type_ := "python" }]

def branchEdges : List (String × String) := [("t1", "t2"), ("t1", "t3")]

/-- C2 (code bug). The spec's branch selection is unimplemented: the plan
built for `t1` statically chains `t1` into a group containing EVERY branch's
tasks (source comment: "Currently schedules all branches — dynamic execution
can be added later"), never consulting `branch_taken` — so with
`branch_taken = "ok"` the `err`-branch task `t3` is still dispatched with
its live TaskRun binding, and nothing in the orchestrator marks non-taken
branches SKIPPED. -/
theorem all_branches_dispatched :
    (build_celery_graph branchTasks branchEdges 3 "t1").map Canvas.nodes
      = some ["t1", "t2", "t3"]
    ∧ (build_celery_graph branchTasks branchEdges 3 "t1").map
        (fun c => c.sigs.map Sig.task_run)
      = some [some "t1", some "t2", some "t3"] :=
  ⟨rfl, rfl⟩

/-- A node with `loop.foreach = [1, 2, 3]`. -/
def loopNode : TaskNode :=
  { task_id := "t1", type_ := "python", loop_foreach := some [.nat 1, .nat 2, .nat 3] }

/-- C8. As stated the claim is FALSE (see
`loop_single_taskrun_counterexample`): `run_workflow` creates one TaskRun
per DAG node, not per item, and the per-item clones are dispatched with
`task_run_id = None`. Amended: for a node carrying `loop.foreach` with n
items, the orchestrator creates exactly ONE TaskRun record for the node and
dispatches n per-item attempts, each receiving the node's raw params with
`loop_item` set to its item and carrying no TaskRun id. -/
theorem loop_fanout_attempts (node : TaskNode) (items : List J)
    (edges : List (String × String)) (fuel : Nat)
    (hbr : node.branches = none)
    (hloop : node.loop_foreach = some items) (hne : items ≠ [])
    (hchild : successors edges node.task_id = []) :
    build_celery_graph [node] edges (fuel + 1) node.task_id
      = some (.group (items.map fun item =>
          .sig { node := node.task_id
                 executor := node.type_
                 params := dset node.params "loop_item" item
                 task_run := none
                 optRetries := node.retries.getD 0 }))
    ∧ workflowTaskRuns [node] = [node.task_id] := by
  constructor
  · cases items with
    | nil => exact absurd rfl hne
    | cons i is =>
      have hfind : findNode [node] node.task_id = some node := by
        simp [findNode, List.find?]
      simp [build_celery_graph, hfind, hchild, hbr, hloop]
  · rfl

/-- C8 counterexample: for `loopNode` (3 foreach items) exactly one TaskRun
row is created — not 3 — and all three dispatched per-item attempts carry
`task_run_id = None`. -/
theorem loop_single_taskrun_counterexample :
    workflowTaskRuns [loopNode] = ["t1"]
    ∧ (workflowTaskRuns [loopNode]).length = 1
    ∧ (1 : Nat) ≠ 3
    ∧ (build_celery_graph [loopNode] [] 1 "t1").map
        (fun c => c.sigs.map Sig.task_run) = some [none, none, none] :=
  ⟨rfl, rfl, by decide, rfl⟩

/-- C8 witness: the amended fan-out theorem applied to the concrete
`loopNode` with items `[1, 2, 3]` and no outgoing edges. -/
theorem loop_fanout_attempts_witness :
    build_celery_graph [loopNode] [] 1 "t1"
      = some (.group ([J.nat 1, J.nat 2, J.nat 3].map fun item =>
          .sig { node := "t1"
                 executor := "python"
                 params := dset [] "loop_item" item
                 task_run := none
                 optRetries := 0 }))
    ∧ workflowTaskRuns [loopNode] = ["t1"] :=
  loop_fanout_attempts loopNode [.nat 1, .nat 2, .nat 3] [] 0 rfl rfl
    (List.cons_ne_nil _ _) rfl

/-- C10 witness: the unknown-executor theorem at the concrete name `ghost`
(absent from `envBoom`'s registry), an empty breaker dict, and attempt 3
(retries exhausted, since `retries` is absent from params and defaults to
3). -/
theorem run_task_unknown_executor_witness :
    (cbGet (run_task envBoom "ghost" [] true [] 3).breaker "ghost").failures = 0 + 1
    ∧ (run_task envBoom "ghost" [] true [] 3).invoked = false
    ∧ (run_task envBoom "ghost" [] true [] 3).outcome = .exn ("Unknown executor: " ++ "ghost")
    ∧ (run_task envBoom "ghost" [] true [] 3).status = some .FAILED :=
  ⟨(run_task_unknown_executor envBoom "ghost" [] [] 3 (by decide) (by decide)).1,
   (run_task_unknown_executor envBoom "ghost" [] [] 3 (by decide) (by decide)).2.1,
   ((run_task_unknown_executor envBoom "ghost" [] [] 3 (by decide) (by decide)).2.2.2
      (by decide)).1,
   ((run_task_unknown_executor envBoom "ghost" [] [] 3 (by decide) (by decide)).2.2.2
      (by decide)).2.1⟩


